import Mathlib

/-!
Shallow embedding of the two Python web servers of this repository:
  * `multithreaded_webserver_testing.py` (functions `safe_path`, `handle_client`,
    `send_error`), and
  * `socketwebserver.py` (the module-level request loop, one iteration per
    accepted connection).

Python strings are modelled as Lean `String` (operated on through their
`List Char` data), bytes as `List Nat` (each entry a byte value), and the
filesystem, the MIME lookup table and the wall clock as explicit parameters
of the handlers.  Socket I/O is abstracted away: a handler consumes the
decoded received request data and produces either no response, exactly one
structured `Response`, or — for the single-threaded server, whose
`try/except` catches only `IOError` — an uncaught exception (`crash`).
-/

set_option maxRecDepth 10000

/-- Python `str.split("?", 1)[0]`: the part of the string before the first
`?` (the whole string when there is none). -/
def stripQuery (s : String) : String :=
  String.mk (s.data.takeWhile (fun c => c != '?'))

/-- Python `str.lstrip("/")`: remove every leading `/`. -/
def dropLeadingSlashes (s : String) : String :=
  String.mk (s.data.dropWhile (fun c => c == '/'))

/-- Hex digit test used by percent-decoding. -/
def isHexDig (c : Char) : Bool :=
  c.isDigit || ('a' ≤ c && c ≤ 'f') || ('A' ≤ c && c ≤ 'F')

/-- Value of a hex digit. -/
def hexVal (c : Char) : Nat :=
  if c.isDigit then c.toNat - 48
  else if 'a' ≤ c then c.toNat - 87
  else c.toNat - 55

/-- Core of `urllib.parse.unquote`: each `%hh` escape (two hex digits) is
replaced by the character with that byte's code point; a `%` not followed by
two hex digits is kept literally.  This agrees with CPython's `unquote` on
every input whose escapes denote ASCII bytes (the only ones relevant to path
traversal); escapes for bytes ≥ 0x80, which CPython groups and decodes as
UTF-8 with `errors="replace"`, are mapped byte-for-byte instead. -/
def unquoteGo : Nat → List Char → List Char
  | _, [] => []
  | 0, l => l
  | fuel + 1, c :: rest =>
    if c = '%' then
      match rest with
      | c1 :: c2 :: rest2 =>
        if isHexDig c1 && isHexDig c2 then
          Char.ofNat (16 * hexVal c1 + hexVal c2) :: unquoteGo fuel rest2
        else c :: unquoteGo fuel (c1 :: c2 :: rest2)
      | _ => c :: unquoteGo fuel rest
    else c :: unquoteGo fuel rest

/-- `unquoteAux` runs `unquoteGo` with enough fuel: every step consumes at
least one character, so fuel equal to the length never runs out. -/
def unquoteAux (l : List Char) : List Char := unquoteGo l.length l

/-- Python `urllib.parse.unquote` (see `unquoteAux`). -/
def pyUnquote (s : String) : String :=
  String.mk (unquoteAux s.data)

/-- Python `str.startswith` / the list-level prefix test used for the
sandbox check in `safe_path`. -/
def pyStartswith (p s : String) : Bool :=
  List.isPrefixOf p.data s.data

/-- Python `str.split('/')` (keeping empty components), as used by
`posixpath.normpath`. -/
def splitOnSlashAux : List Char → List Char → List String
  | [], acc => [String.mk acc.reverse]
  | c :: rest, acc =>
    if c = '/' then String.mk acc.reverse :: splitOnSlashAux rest []
    else splitOnSlashAux rest (c :: acc)

/-- One step of `posixpath.normpath`'s component loop: skip `''` and `'.'`,
append ordinary components, and let `..` pop the previous component unless
the path is relative and nothing has been kept yet (or the kept tail is
itself `..`). -/
def normStep (initialSlashes : Nat) (acc : List String) (comp : String) : List String :=
  if comp = "" || comp = "." then acc
  else if comp ≠ ".." || (initialSlashes = 0 && acc.isEmpty) || acc.getLast? = some ".."
    then acc ++ [comp]
  else acc.dropLast

/-- `posixpath.normpath`: collapse `.`/`..`/empty components, preserving one
leading slash (or exactly two, POSIX-style, when the path starts with
exactly two). -/
def pyNormPath (s : String) : String :=
  if s = "" then "."
  else
    let initialSlashes : Nat :=
      if pyStartswith "/" s then
        if pyStartswith "//" s && !(pyStartswith "///" s) then 2 else 1
      else 0
    let comps := splitOnSlashAux s.data []
    let newComps := comps.foldl (normStep initialSlashes) []
    let path := String.mk (List.replicate initialSlashes '/') ++
      String.intercalate "/" newComps
    if path = "" then "." else path

/-- Python `str.endswith`, as a list-level suffix test. -/
def pyEndswith (p s : String) : Bool :=
  List.isSuffixOf p.data s.data

/-- `posixpath.join` restricted to two arguments, as called by `safe_path`. -/
def pyJoin (a b : String) : String :=
  if pyStartswith "/" b then b
  else if a = "" || pyEndswith "/" a then a ++ b
  else a ++ "/" ++ b

/-- The `raw` local of `safe_path` before the default-document substitution:
query stripped, percent-decoded, all leading slashes removed. -/
def rawOf (url_path : String) : String :=
  dropLeadingSlashes (pyUnquote (stripQuery url_path))

/-- `safe_path` from `multithreaded_webserver_testing.py`.  The module
constant `WEB_ROOT` (`os.getcwd()` at startup) is passed explicitly. -/
def safe_path (webRoot url_path : String) : Option String :=
  let raw := rawOf url_path
  let raw := if raw = "" then "webservertesting.html" else raw
  let safe := pyNormPath (pyJoin webRoot raw)
  if pyStartswith webRoot safe then some safe else none

/-- Modelled from the spec: "every ResolvedTarget's canonicalized path is a
descendant of (or equal to, but never above) root" — the target equals the
root or extends it past a path separator.  Used to state what lying
"inside the configured root directory" means, as opposed to the plain
string-prefix test the code performs. -/
def insideRootDir (root p : String) : Bool :=
  p == root || pyStartswith (root ++ "/") p

/-- Follows the words of claim C7 / spec §4.3 step 3 for comparison with the
code: strip exactly ONE leading path separator (the code's `lstrip("/")`
strips all of them); the rest of the pipeline is unchanged. -/
def safe_path_single (webRoot url_path : String) : Option String :=
  let d := pyUnquote (stripQuery url_path)
  let raw := if pyStartswith "/" d then String.mk d.data.tail else d
  let raw := if raw = "" then "webservertesting.html" else raw
  let safe := pyNormPath (pyJoin webRoot raw)
  if pyStartswith webRoot safe then some safe else none

/-- `st_filepath`: the path-to-filename computation of `socketwebserver.py`
(lines 67–72): substitute the default document only when the path is exactly
`/`, then `path.lstrip("/").split("?")[0]`.  No percent-decoding and no
containment check of any kind are performed. -/
def st_filepath (path : String) : String :=
  let path := if path = "/" then "/webservertesting.html" else path
  stripQuery (dropLeadingSlashes path)

/-- Whitespace test of Python `str.split()` with no argument
(`Py_UNICODE_ISSPACE`). -/
def pyIsSpace (c : Char) : Bool :=
  let n := c.toNat
  (9 ≤ n && n ≤ 13) || n = 32 || (28 ≤ n && n ≤ 31) || n = 0x85 || n = 0xA0 ||
    n = 0x1680 || (0x2000 ≤ n && n ≤ 0x200A) || n = 0x2028 || n = 0x2029 ||
    n = 0x202F || n = 0x205F || n = 0x3000

/-- Accumulator pass of Python `str.split()`: split on runs of whitespace,
discarding empty tokens. -/
def pySplitWsAux : List Char → List Char → List String
  | [], acc => if acc.isEmpty then [] else [String.mk acc.reverse]
  | c :: rest, acc =>
    if pyIsSpace c then
      if acc.isEmpty then pySplitWsAux rest []
      else String.mk acc.reverse :: pySplitWsAux rest []
    else pySplitWsAux rest (c :: acc)

/-- Python `str.split()` with no argument. -/
def pySplitWs (s : String) : List String := pySplitWsAux s.data []

/-- First segment of Python `str.split("\r\n")`: everything before the first
CR-LF pair (used by `handle_client` as the request line). -/
def firstLineCRLFAux : List Char → List Char
  | [] => []
  | c :: rest =>
    if c = '\r' && rest.head? = some '\n' then []
    else c :: firstLineCRLFAux rest

/-- `request_data.split("\r\n")[0]`. -/
def firstLineCRLF (s : String) : String := String.mk (firstLineCRLFAux s.data)

/-- Line-boundary test of Python `str.splitlines()`. -/
def isLineBoundary (c : Char) : Bool :=
  let n := c.toNat
  n = 10 || n = 13 || n = 11 || n = 12 || n = 28 || n = 29 || n = 30 ||
    n = 0x85 || n = 0x2028 || n = 0x2029

/-- Accumulator pass of Python `str.splitlines()` (no trailing empty line),
fuelled like `unquoteGo`. -/
def splitlinesGo : Nat → List Char → List Char → List String
  | _, [], acc => if acc.isEmpty then [] else [String.mk acc.reverse]
  | 0, _, acc => [String.mk acc.reverse]
  | fuel + 1, c :: rest, acc =>
    if c = '\r' && rest.head? = some '\n' then
      String.mk acc.reverse :: splitlinesGo fuel rest.tail []
    else if isLineBoundary c then
      String.mk acc.reverse :: splitlinesGo fuel rest []
    else splitlinesGo fuel rest (c :: acc)

/-- Python `str.splitlines()`. -/
def pySplitlines (s : String) : List String := splitlinesGo s.data.length s.data []

/-- `(request_data.splitlines() or [""])[0]` from `socketwebserver.py`. -/
def stFirstLine (s : String) : String := (pySplitlines s).headD ""

/-- UTF-8 encoding of one character (Python `str.encode("utf-8")`,
per scalar value). -/
def utf8EncodeChar (c : Char) : List Nat :=
  let n := c.toNat
  if n < 0x80 then [n]
  else if n < 0x800 then [0xC0 + n / 64, 0x80 + n % 64]
  else if n < 0x10000 then
    [0xE0 + n / 4096, 0x80 + (n / 64) % 64, 0x80 + n % 64]
  else
    [0xF0 + n / 262144, 0x80 + (n / 4096) % 64, 0x80 + (n / 64) % 64,
      0x80 + n % 64]

/-- Python `str.encode("utf-8")` as a byte list. -/
def strBytes (s : String) : List Nat := (s.data.map utf8EncodeChar).flatten

/-- Continuation-byte test for strict UTF-8 decoding. -/
def isCont (b : Nat) : Bool := 0x80 ≤ b && b ≤ 0xBF

/-- Strict UTF-8 decoding of a byte list (CPython's `codecs` strict mode:
rejects continuation errors, overlong forms, surrogates and values above
U+10FFFF).  `none` corresponds to a `UnicodeDecodeError`. -/
def utf8DecodeGo : Nat → List Nat → Option (List Char)
  | _, [] => some []
  | 0, _ => none
  | fuel + 1, b :: rest =>
    if b < 0x80 then (utf8DecodeGo fuel rest).map (fun cs => Char.ofNat b :: cs)
    else
      match rest with
      | b1 :: rest1 =>
        if 0xC2 ≤ b && b ≤ 0xDF && isCont b1 then
          (utf8DecodeGo fuel rest1).map
            (fun cs => Char.ofNat ((b - 0xC0) * 64 + (b1 - 0x80)) :: cs)
        else
          match rest1 with
          | b2 :: rest2 =>
            if (b = 0xE0 && 0xA0 ≤ b1 && b1 ≤ 0xBF && isCont b2) ||
               (0xE1 ≤ b && b ≤ 0xEC && isCont b1 && isCont b2) ||
               (b = 0xED && 0x80 ≤ b1 && b1 ≤ 0x9F && isCont b2) ||
               (0xEE ≤ b && b ≤ 0xEF && isCont b1 && isCont b2) then
              (utf8DecodeGo fuel rest2).map (fun cs =>
                Char.ofNat ((b - 0xE0) * 4096 + (b1 - 0x80) * 64 + (b2 - 0x80)) :: cs)
            else
              match rest2 with
              | b3 :: rest3 =>
                if (b = 0xF0 && 0x90 ≤ b1 && b1 ≤ 0xBF && isCont b2 && isCont b3) ||
                   (0xF1 ≤ b && b ≤ 0xF3 && isCont b1 && isCont b2 && isCont b3) ||
                   (b = 0xF4 && 0x80 ≤ b1 && b1 ≤ 0x8F && isCont b2 && isCont b3) then
                  (utf8DecodeGo fuel rest3).map (fun cs =>
                    Char.ofNat ((b - 0xF0) * 262144 + (b1 - 0x80) * 4096 +
                      (b2 - 0x80) * 64 + (b3 - 0x80)) :: cs)
                else none
              | [] => none
          | [] => none
      | [] => none

/-- `utf8Decode` runs `utf8DecodeGo` with enough fuel (each step consumes at
least one byte, so the length suffices). -/
def utf8Decode (l : List Nat) : Option (List Char) := utf8DecodeGo l.length l

/-- Universal-newline translation applied by Python text-mode reading:
`\r\n` and lone `\r` both become `\n`. -/
def translateNewlines : List Char → List Char
  | [] => []
  | c :: rest =>
    if c = '\r' then
      if rest.head? = some '\n' then translateNewlines rest
      else '\n' :: translateNewlines rest
    else c :: translateNewlines rest

/-- A filesystem entry at a concrete path: a regular readable file with the
given on-disk bytes, or a regular file whose `open`/`read` raises an
`OSError` (e.g. a permission failure after a successful `isfile` test). -/
inductive FSEntry where
  | file (content : List Nat)
  | unreadable
deriving DecidableEq

/-- One HTTP response as the servers assemble it: status line pieces, the
header lines exactly as formatted by the code, and the body bytes. -/
structure Response where
  status : Nat
  reason : String
  headers : List String
  body : List Nat
deriving DecidableEq

/-- Result of one `handle_client` invocation of the multithreaded server. -/
inductive MTResult where
  | noResponse
  | response (r : Response)
deriving DecidableEq

/-- Result of one loop iteration of the single-threaded server: silent
`continue`, exactly one response, or an exception that escapes the
`except IOError` handler and aborts the process. -/
inductive STResult where
  | silent
  | response (r : Response)
  | crash
deriving DecidableEq

/-- The error HTML body format string of `send_error`. -/
def errHtml (code : Nat) (reason : String) : String :=
  "<html><body><h1>" ++ toString code ++ " " ++ reason ++ "</h1></body></html>"

/-- `send_error` from `multithreaded_webserver_testing.py` with its default
`body=None` (every call site uses the default). -/
def send_error (date : String) (code : Nat) (reason : String)
    (extraHeaders : List String) : Response :=
  let body := strBytes (errHtml code reason)
  { status := code
    reason := reason
    headers := ["Date: " ++ date, "Server: CS538Toy/1.0",
      "Content-Type: text/html; charset=utf-8",
      "Content-Length: " ++ toString body.length,
      "Connection: close"] ++ extraHeaders
    body := body }

/-- `content_type.startswith("text/")` / `+= "; charset=utf-8"` step shared
by both servers, applied to the `mimetypes.guess_type` result with its
`application/octet-stream` fallback. -/
def contentTypeFor (mime : String → Option String) (filepath : String) : String :=
  let ct := (mime filepath).getD "application/octet-stream"
  if pyStartswith "text/" ct then ct ++ "; charset=utf-8" else ct

/-- The 200 response of the multithreaded server's `handle_client`. -/
def mtOk (date ct : String) (content : List Nat) : Response :=
  { status := 200
    reason := "OK"
    headers := ["Date: " ++ date, "Server: CS538Toy/1.0",
      "Content-Type: " ++ ct,
      "Content-Length: " ++ toString content.length,
      "Connection: close"]
    body := content }

/-- `handle_client` from `multithreaded_webserver_testing.py`.  Parameters:
the module constant `WEB_ROOT`, the filesystem, the `mimetypes.guess_type`
collaborator, the `http_date()` value, and the received request bytes after
`.decode(errors="ignore")`.  The `try/except Exception` wrapping the body
downgrades the one modelled unexpected failure — a read error on a file
that passed `os.path.isfile` — to a 500 response. -/
def handle_client (webRoot : String) (fs : String → Option FSEntry)
    (mime : String → Option String) (date : String)
    (request_data : String) : MTResult :=
  if request_data = "" then .noResponse
  else
    match pySplitWs (firstLineCRLF request_data) with
    | [method, path, _version] =>
      if method ≠ "GET" then
        .response (send_error date 405 "Method Not Allowed" ["Allow: GET"])
      else
        match safe_path webRoot path with
        | none => .response (send_error date 404 "Not Found" [])
        | some filepath =>
          match fs filepath with
          | none => .response (send_error date 404 "Not Found" [])
          | some .unreadable =>
            .response (send_error date 500 "Internal Server Error" [])
          | some (.file content) =>
            .response (mtOk date (contentTypeFor mime filepath) content)
    | _ => .response (send_error date 400 "Bad Request" [])

/-- The 200 response of the single-threaded server (no Date or Server
header). -/
def stOk (ct : String) (content : List Nat) : Response :=
  { status := 200
    reason := "OK"
    headers := ["Content-Type: " ++ ct,
      "Content-Length: " ++ toString content.length,
      "Connection: close"]
    body := content }

/-- The single 404 error response of `socketwebserver.py`'s
`except IOError` branch, with its fixed body. -/
def st404Response : Response :=
  let body := strBytes ("<html><body><h1>404 Not Found</h1>" ++
    "<p>The requested file was not found on the server.</p></body></html>")
  { status := 404
    reason := "Not Found"
    headers := ["Content-Type: text/html; charset=utf-8",
      "Content-Length: " ++ toString body.length,
      "Connection: close"]
    body := body }

/-- File service of `socketwebserver.py` (lines 74–108) for an
already-parsed path: MIME detection, text- vs binary-mode read, and the 200
response.  Text mode decodes the on-disk bytes as strict UTF-8 (failure is
a `UnicodeDecodeError`, which `except IOError` does not catch → `crash`),
applies universal-newline translation, and re-encodes; any `OSError` from
`open`/`read` is caught by `except IOError` → the 404 response. -/
def st_serve (fs : String → Option FSEntry) (mime : String → Option String)
    (path : String) : STResult :=
  let filepath := st_filepath path
  let ct := contentTypeFor mime filepath
  if pyStartswith "text/" ct then
    match fs filepath with
    | some (.file content) =>
      match utf8Decode content with
      | some chars =>
        .response (stOk ct (strBytes (String.mk (translateNewlines chars))))
      | none => .crash
    | _ => .response st404Response
  else
    match fs filepath with
    | some (.file content) => .response (stOk ct content)
    | _ => .response st404Response

/-- One iteration of the request loop of `socketwebserver.py` for one
accepted connection, given the decoded received data.  A request line that
does not unpack into three tokens raises `ValueError`, caught locally and
replaced by `GET / HTTP/1.1`; a non-`GET` method raises `IOError`, caught
by the outer `except IOError` → the 404 response. -/
def st_handle (fs : String → Option FSEntry) (mime : String → Option String)
    (request_data : String) : STResult :=
  if request_data = "" then .silent
  else
    match pySplitWs (stFirstLine request_data) with
    | [method, _path, _version] =>
      if method ≠ "GET" then .response st404Response
      else st_serve fs mime _path
    | _ => st_serve fs mime "/"

/-! ### Concrete collaborators used by the closed evaluation theorems -/

/-- Empty filesystem: no file exists anywhere. -/
def fsEmpty : String → Option FSEntry := fun _ => none

/-- MIME collaborator that knows no extension. -/
def mimeNone : String → Option String := fun _ => none

/-- MIME collaborator mapping the extensions used in the tests the way
`mimetypes.guess_type` does. -/
def mimeStd : String → Option String := fun p =>
  if pyEndswith ".txt" p then some "text/plain"
  else if pyEndswith ".html" p then some "text/html"
  else if pyEndswith ".png" p then some "image/png"
  else none

/-- Filesystem holding one file two directories above the working directory,
reachable by the relative path the single-threaded server computes. -/
def fsPasswd : String → Option FSEntry := fun p =>
  if p = "../../etc/passwd" then some (.file [42]) else none

/-! ### Claim theorems -/

/-- C1: the spec demands that no request path, however crafted, resolves to
a target outside the configured root.  Both servers violate this.  The
multithreaded `safe_path` guards with a plain string-prefix test, so with
root `/srv/www` the request `/../www2/secret.txt` canonicalizes to
`/srv/www2/secret.txt` — accepted although it lies outside the root
directory.  The single-threaded server computes `../../etc/passwd` verbatim
from `GET /../../etc/passwd` (its only "sanitization" is `lstrip("/")`) and
serves the file with a 200 response. -/
theorem c1_sandbox_escape_eval :
    safe_path "/srv/www" "/../www2/secret.txt" = some "/srv/www2/secret.txt" ∧
    insideRootDir "/srv/www" "/srv/www2/secret.txt" = false ∧
    st_filepath "/../../etc/passwd" = "../../etc/passwd" ∧
    st_handle fsPasswd mimeNone "GET /../../etc/passwd HTTP/1.1\r\n\r\n" =
      .response (stOk "application/octet-stream" [42]) := by
  refine ⟨by decide, by decide, by decide, by decide⟩

/-- C9: zero bytes received decode to the empty string, on which both
handlers return without attempting any response. -/
theorem c9_empty_request_silent :
    (∀ root fs mime date, handle_client root fs mime date "" = .noResponse) ∧
    (∀ fs mime, st_handle fs mime "" = .silent) :=
  ⟨fun _ _ _ _ => rfl, fun _ _ => rfl⟩

/-- C10: `safe_path` returns `none` or a string that starts, character for
character, with `WEB_ROOT`; the guarantee is exactly a string-prefix
property, so a path in a sibling directory whose name extends the root's
name (here `/home/u/site2` next to root `/home/u/site`) also passes. -/
theorem c10_prefix_containment :
    (∀ root p s, safe_path root p = some s → pyStartswith root s = true) ∧
    (safe_path "/home/u/site" "/../site2/x.txt" = some "/home/u/site2/x.txt" ∧
      insideRootDir "/home/u/site" "/home/u/site2/x.txt" = false) := by
  constructor
  · intro root p s h
    simp only [safe_path] at h
    split at h <;> split at h <;> (cases h; try assumption)
  · exact ⟨by decide, by decide⟩

/-- Witness for C10: the prefix theorem applied at a concrete input. -/
theorem c10_witness :
    pyStartswith "/srv/www" "/srv/www/index.html" = true :=
  c10_prefix_containment.1 "/srv/www" "/index.html" "/srv/www/index.html"
    (by decide)

/-! ### Helper lemmas shared by several claims -/

/-- `String.append` concatenates the underlying character lists. -/
theorem string_data_append (a b : String) : (a ++ b).data = a.data ++ b.data :=
  rfl

/-- A list is a `isPrefixOf` of itself followed by anything. -/
theorem isPrefixOf_self_append (l m : List Char) :
    List.isPrefixOf l (l ++ m) = true := by
  induction l with
  | nil => simp [List.isPrefixOf]
  | cons c cs ih => simp [List.isPrefixOf, ih]

/-- `pyStartswith a (a ++ b)` always holds. -/
theorem pyStartswith_self_append (a b : String) :
    pyStartswith a (a ++ b) = true := by
  unfold pyStartswith
  rw [string_data_append]
  exact isPrefixOf_self_append a.data b.data

/-- Coherence of a response: the Content-Length header states the exact
byte length of the body. -/
def clOk (r : Response) : Prop :=
  ("Content-Length: " ++ toString r.body.length) ∈ r.headers

/-- `clOk` lifted to the multithreaded handler's result. -/
def mtClOk : MTResult → Prop
  | .noResponse => True
  | .response r => clOk r

/-- `clOk` lifted to the single-threaded handler's result. -/
def stClOk : STResult → Prop
  | .silent => True
  | .crash => True
  | .response r => clOk r

theorem clOk_send_error (date : String) (code : Nat) (reason : String)
    (extras : List String) : clOk (send_error date code reason extras) := by
  simp [clOk, send_error]

theorem clOk_mtOk (date ct : String) (content : List Nat) :
    clOk (mtOk date ct content) := by
  simp [clOk, mtOk]

theorem clOk_stOk (ct : String) (content : List Nat) :
    clOk (stOk ct content) := by
  simp [clOk, stOk]

theorem clOk_st404 : clOk st404Response := by
  simp [clOk, st404Response]

theorem stClOk_serve (fs : String → Option FSEntry)
    (mime : String → Option String) (path : String) :
    stClOk (st_serve fs mime path) := by
  unfold st_serve
  by_cases h : pyStartswith "text/" (contentTypeFor mime (st_filepath path)) = true
  · rw [if_pos h]
    rcases hf : fs (st_filepath path) with _ | e
    · simp [stClOk, clOk_st404]
    · rcases e with c | _
      · rcases hd : utf8Decode c with _ | chars
        · simp [hd, stClOk]
        · simp [hd, stClOk, clOk_stOk]
      · simp [stClOk, clOk_st404]
  · rw [if_neg h]
    rcases hf : fs (st_filepath path) with _ | e
    · simp [stClOk, clOk_st404]
    · rcases e with c | _
      · simp [stClOk, clOk_stOk]
      · simp [stClOk, clOk_st404]

/-- C6: on every response either server sends — success or error — the
Content-Length header value is the byte length of the transmitted body. -/
theorem c6_content_length :
    (∀ root fs mime date data, mtClOk (handle_client root fs mime date data)) ∧
    (∀ fs mime data, stClOk (st_handle fs mime data)) := by
  constructor
  · intro root fs mime date data
    unfold handle_client
    repeat' split
    all_goals simp [mtClOk, clOk_send_error, clOk_mtOk]
  · intro fs mime data
    unfold st_handle
    repeat' split
    all_goals first
      | exact stClOk_serve ..
      | simp [stClOk, clOk_st404, clOk_stOk]

/-- Taking up to the first `?` ignores everything from a `?` onward. -/
theorem takeWhile_until_qm_append (l1 l2 : List Char) :
    List.takeWhile (fun c => c != '?') (l1 ++ '?' :: l2) =
    List.takeWhile (fun c => c != '?') l1 := by
  induction l1 with
  | nil => simp [List.takeWhile]
  | cons c cs ih =>
    by_cases h : c = '?' <;> simp [List.takeWhile, h, ih]

/-- Query stripping is insensitive to anything after a `?`. -/
theorem rawOf_query (p q : String) : rawOf (p ++ "?" ++ q) = rawOf p := by
  unfold rawOf stripQuery
  have h : (p ++ "?" ++ q).data = p.data ++ '?' :: q.data := by
    rw [string_data_append, string_data_append]
    simp
  rw [h, takeWhile_until_qm_append]

/-- A request path keeps the same resolution when one more leading slash is
prepended: `lstrip("/")` removes every leading separator. -/
theorem rawOf_slash (p : String) : rawOf ("/" ++ p) = rawOf p := by
  unfold rawOf dropLeadingSlashes pyUnquote unquoteAux stripQuery
  have h : ("/" ++ p).data = '/' :: p.data := rfl
  rw [h, List.takeWhile_cons]
  simp only [List.length_cons, unquoteGo, List.dropWhile]
  simp

/-- C7 counterexample: the claim says exactly one leading separator is
stripped.  On `//c.txt` with root `/a/b` the code (which strips them all)
serves `/a/b/c.txt`, while the single-strip pipeline the claim describes
joins the absolute remainder `/c.txt`, escapes the prefix check and yields
`None`. -/
theorem c7_counterexample :
    safe_path "/a/b" "//c.txt" = some "/a/b/c.txt" ∧
    safe_path_single "/a/b" "//c.txt" = none :=
  ⟨by decide, by decide⟩

/-- C7 amended: `safe_path` strips ALL leading separators (prepending a
slash never changes the outcome), strips the query before decoding, and an
empty remainder resolves exactly like the default document. -/
theorem c7_amended_strip_all_slashes :
    (∀ root p, safe_path root ("/" ++ p) = safe_path root p) ∧
    (∀ root p q, safe_path root (p ++ "?" ++ q) = safe_path root p) ∧
    (∀ root, safe_path root "/" = safe_path root "/webservertesting.html") := by
  refine ⟨fun root p => ?_, fun root p q => ?_, fun root => ?_⟩
  · unfold safe_path
    rw [rawOf_slash]
  · unfold safe_path
    rw [rawOf_query]
  · unfold safe_path
    have h1 : rawOf "/" = "" := by decide
    have h2 : rawOf "/webservertesting.html" = "webservertesting.html" := by decide
    rw [h1, h2]
    simp

/-- Status observation on the single-threaded result. -/
def stStatus : STResult → Option Nat
  | .response r => some r.status
  | _ => none

/-- The single-threaded file service only ever answers 200 or 404 (or
crashes / stays silent). -/
theorem stServe_status (fs : String → Option FSEntry)
    (mime : String → Option String) (path : String) :
    stStatus (st_serve fs mime path) = none ∨
    stStatus (st_serve fs mime path) = some 200 ∨
    stStatus (st_serve fs mime path) = some 404 := by
  unfold st_serve
  by_cases h : pyStartswith "text/" (contentTypeFor mime (st_filepath path)) = true
  · rw [if_pos h]
    rcases hf : fs (st_filepath path) with _ | e
    · simp [stStatus, st404Response]
    · rcases e with c | _
      · rcases hd : utf8Decode c with _ | chars
        · simp [hd, stStatus]
        · simp [hd, stStatus, stOk]
      · simp [stStatus, st404Response]
  · rw [if_neg h]
    rcases hf : fs (st_filepath path) with _ | e
    · simp [stStatus, st404Response]
    · rcases e with c | _
      · simp [stStatus, stOk]
      · simp [stStatus, st404Response]

/-- The single-threaded server never produces a 400 response at all. -/
theorem st_never_400 (fs : String → Option FSEntry)
    (mime : String → Option String) (data : String) :
    stStatus (st_handle fs mime data) ≠ some 400 := by
  unfold st_handle
  by_cases h1 : data = ""
  · simp [h1, stStatus]
  · rw [if_neg h1]
    rcases hl : pySplitWs (stFirstLine data) with _ | ⟨m, rest1⟩
    · rcases stServe_status fs mime "/" with h | h | h <;> simp [h]
    · rcases rest1 with _ | ⟨p, rest2⟩
      · rcases stServe_status fs mime "/" with h | h | h <;> simp [h]
      · rcases rest2 with _ | ⟨v, rest3⟩
        · rcases stServe_status fs mime "/" with h | h | h <;> simp [h]
        · rcases rest3 with _ | ⟨w, tl⟩
          · by_cases hm : m = "GET"
            · subst hm
              simp only [ne_eq, not_true_eq_false, if_false, reduceIte]
              rcases stServe_status fs mime p with h | h | h <;> simp [h]
            · simp [hm, stStatus, st404Response]
          · rcases stServe_status fs mime "/" with h | h | h <;> simp [h]

/-- C2 counterexample: a request line with a single token (`HELLO`) makes
the single-threaded server answer 404 (it silently substitutes
`GET / HTTP/1.1` and then misses the default document), not the claimed
400. -/
theorem c2_counterexample :
    stStatus (st_handle fsEmpty mimeStd "HELLO\r\n\r\n") ≠ some 400 ∧
    stStatus (st_handle fsEmpty mimeStd "HELLO\r\n\r\n") = some 404 :=
  ⟨by decide, by decide⟩

/-- C2 amended: only the multithreaded server answers 400 when the first
line does not split into exactly three tokens (for a non-empty request);
the single-threaded server replaces the request line with
`GET / HTTP/1.1` instead and never sends a 400 at all. -/
theorem c2_amended_token_count :
    (∀ root fs mime date data, data ≠ "" →
      (pySplitWs (firstLineCRLF data)).length ≠ 3 →
      handle_client root fs mime date data =
        .response (send_error date 400 "Bad Request" [])) ∧
    (∀ fs mime data, stStatus (st_handle fs mime data) ≠ some 400) := by
  constructor
  · intro root fs mime date data h1 h2
    unfold handle_client
    rw [if_neg h1]
    rcases hl : pySplitWs (firstLineCRLF data) with _ | ⟨a, _ | ⟨b, _ | ⟨c, _ | ⟨d, tl⟩⟩⟩⟩ <;>
      first
        | rfl
        | (rw [hl] at h2; simp at h2)
  · exact st_never_400

/-- Witness for C2: the amended theorem applied to the one-token request
`HI` (multithreaded part) and to the same data on the single-threaded
server. -/
theorem c2_witness :
    handle_client "/r" fsEmpty mimeNone "D" "HI\r\n" =
      .response (send_error "D" 400 "Bad Request" []) ∧
    stStatus (st_handle fsEmpty mimeNone "HI\r\n") ≠ some 400 :=
  ⟨c2_amended_token_count.1 "/r" fsEmpty mimeNone "D" "HI\r\n" (by decide)
    (by decide),
   c2_amended_token_count.2 fsEmpty mimeNone "HI\r\n"⟩

/-- C3 counterexample: `POST / HTTP/1.1` makes the single-threaded server
answer 404 (its `IOError("Method not supported")` lands in the generic
`except IOError` branch) with no `Allow` header — not the claimed 405 with
`Allow: GET`. -/
theorem c3_counterexample :
    st_handle fsEmpty mimeStd "POST / HTTP/1.1\r\n\r\n" =
      .response st404Response ∧
    "Allow: GET" ∉ st404Response.headers :=
  ⟨by decide, by decide⟩

/-- C3 amended: for a well-formed request line whose method is not `GET`,
the multithreaded server answers 405 with an `Allow: GET` header, while the
single-threaded server answers its 404 response (no Allow header). -/
theorem c3_amended_method_not_get :
    (∀ root fs mime date data m p v, data ≠ "" →
      pySplitWs (firstLineCRLF data) = [m, p, v] → m ≠ "GET" →
      handle_client root fs mime date data =
        .response (send_error date 405 "Method Not Allowed" ["Allow: GET"]) ∧
      "Allow: GET" ∈
        (send_error date 405 "Method Not Allowed" ["Allow: GET"]).headers) ∧
    (∀ fs mime data m p v, data ≠ "" →
      pySplitWs (stFirstLine data) = [m, p, v] → m ≠ "GET" →
      st_handle fs mime data = .response st404Response) := by
  constructor
  · intro root fs mime date data m p v h1 hl hm
    constructor
    · unfold handle_client
      rw [if_neg h1, hl]
      simp [hm]
    · simp [send_error]
  · intro fs mime data m p v h1 hl hm
    unfold st_handle
    rw [if_neg h1, hl]
    simp [hm]

/-- Witness for C3: the amended theorem applied to `POST /x HTTP/1.1`. -/
theorem c3_witness :
    handle_client "/r" fsEmpty mimeNone "D" "POST /x HTTP/1.1\r\n" =
      .response (send_error "D" 405 "Method Not Allowed" ["Allow: GET"]) ∧
    st_handle fsEmpty mimeNone "POST /x HTTP/1.1\r\n" =
      .response st404Response :=
  ⟨(c3_amended_method_not_get.1 "/r" fsEmpty mimeNone "D" "POST /x HTTP/1.1\r\n"
      "POST" "/x" "HTTP/1.1" (by decide) (by decide) (by decide)).1,
   c3_amended_method_not_get.2 fsEmpty mimeNone "POST /x HTTP/1.1\r\n"
      "POST" "/x" "HTTP/1.1" (by decide) (by decide) (by decide)⟩

/-- Filesystem with one text file whose on-disk bytes `A\r\nB` contain a
CR-LF pair. -/
def fsCrlfText : String → Option FSEntry := fun p =>
  if p = "a.txt" then some (.file [65, 13, 10, 66]) else none

/-- Filesystem with one text file whose single byte 0xFF is not valid
UTF-8. -/
def fsBadText : String → Option FSEntry := fun p =>
  if p = "b.txt" then some (.file [255]) else none

/-- C4 counterexample: the single-threaded server reads text files in text
mode and re-encodes them, so the 4 on-disk bytes `A\r\nB` of `a.txt` are
served as the 3 bytes `A\nB`: the transmitted body differs from the on-disk
bytes and Content-Length is 3, not the file size 4. -/
theorem c4_counterexample :
    st_handle fsCrlfText mimeStd "GET /a.txt HTTP/1.1\r\n\r\n" =
      .response (stOk "text/plain; charset=utf-8" [65, 10, 66]) ∧
    fsCrlfText "a.txt" = some (.file [65, 13, 10, 66]) ∧
    [65, 10, 66] ≠ [65, 13, 10, 66] ∧
    "Content-Length: 3" ∈ (stOk "text/plain; charset=utf-8" [65, 10, 66]).headers :=
  ⟨by decide, by decide, by decide, by decide⟩

/-- C5 counterexample: a `UnicodeDecodeError` while the single-threaded
server reads a text file is not an `IOError`, so it escapes the handler and
aborts the process instead of becoming a 500 (or any) response. -/
theorem c5_counterexample :
    st_handle fsBadText mimeStd "GET /b.txt HTTP/1.1\r\n\r\n" = .crash :=
  by decide

/-- C4 amended: the multithreaded server serves every readable file
byte-identically, with Content-Length equal to the byte count and
Content-Type derived from the MIME lookup of the resolved path (charset
appended for text types).  The single-threaded server does the same only
for non-text content types; text files go through a decode/re-encode round
trip (see the counterexample). -/
theorem c4_amended_round_trip :
    (∀ root fs mime date data p v fp content, data ≠ "" →
      pySplitWs (firstLineCRLF data) = ["GET", p, v] →
      safe_path root p = some fp → fs fp = some (.file content) →
      handle_client root fs mime date data =
        .response (mtOk date (contentTypeFor mime fp) content) ∧
      (mtOk date (contentTypeFor mime fp) content).body = content ∧
      ("Content-Length: " ++ toString content.length) ∈
        (mtOk date (contentTypeFor mime fp) content).headers ∧
      ("Content-Type: " ++ contentTypeFor mime fp) ∈
        (mtOk date (contentTypeFor mime fp) content).headers) ∧
    (∀ fs mime data p v content, data ≠ "" →
      pySplitWs (stFirstLine data) = ["GET", p, v] →
      fs (st_filepath p) = some (.file content) →
      pyStartswith "text/" (contentTypeFor mime (st_filepath p)) = false →
      st_handle fs mime data =
        .response (stOk (contentTypeFor mime (st_filepath p)) content)) := by
  constructor
  · intro root fs mime date data p v fp content h1 hl hsp hfs
    refine ⟨?_, by simp [mtOk], by simp [mtOk], by simp [mtOk]⟩
    unfold handle_client
    rw [if_neg h1, hl]
    simp [hsp, hfs]
  · intro fs mime data p v content h1 hl hfs htext
    unfold st_handle
    rw [if_neg h1, hl]
    simp only [ne_eq, not_true_eq_false, if_false, reduceIte]
    unfold st_serve
    rw [if_neg (by simp [htext])]
    simp [hfs]

/-- Witness for C4: both parts of the amended theorem applied to a concrete
PNG file. -/
theorem c4_witness :
    handle_client "/r"
        (fun q => if q = "/r/p.png" then some (.file [1, 2, 3]) else none)
        mimeStd "D" "GET /p.png HTTP/1.1\r\n" =
      .response (mtOk "D" (contentTypeFor mimeStd "/r/p.png") [1, 2, 3]) ∧
    st_handle (fun q => if q = "p.png" then some (.file [1, 2, 3]) else none)
        mimeStd "GET /p.png HTTP/1.1\r\n" =
      .response (stOk (contentTypeFor mimeStd (st_filepath "/p.png")) [1, 2, 3]) :=
  ⟨(c4_amended_round_trip.1 "/r"
      (fun q => if q = "/r/p.png" then some (.file [1, 2, 3]) else none)
      mimeStd "D" "GET /p.png HTTP/1.1\r\n" "/p.png" "HTTP/1.1" "/r/p.png"
      [1, 2, 3] (by decide) (by decide) (by decide) (by decide)).1,
   c4_amended_round_trip.2
      (fun q => if q = "p.png" then some (.file [1, 2, 3]) else none)
      mimeStd "GET /p.png HTTP/1.1\r\n" "/p.png" "HTTP/1.1" [1, 2, 3]
      (by decide) (by decide) (by decide) (by decide)⟩

/-- C5 amended: the multithreaded handler's `except Exception` turns a read
failure on a file that passed `isfile` into a 500 response, while the
single-threaded server catches only `IOError`, answers those with its 404
response, and lets any other failure escape (see the counterexample's
crash). -/
theorem c5_amended_failure_handling :
    (∀ root fs mime date data p v fp, data ≠ "" →
      pySplitWs (firstLineCRLF data) = ["GET", p, v] →
      safe_path root p = some fp → fs fp = some .unreadable →
      handle_client root fs mime date data =
        .response (send_error date 500 "Internal Server Error" [])) ∧
    (∀ fs mime data p v, data ≠ "" →
      pySplitWs (stFirstLine data) = ["GET", p, v] →
      fs (st_filepath p) = some .unreadable →
      st_handle fs mime data = .response st404Response) := by
  constructor
  · intro root fs mime date data p v fp h1 hl hsp hfs
    unfold handle_client
    rw [if_neg h1, hl]
    simp [hsp, hfs]
  · intro fs mime data p v h1 hl hfs
    unfold st_handle
    rw [if_neg h1, hl]
    simp only [ne_eq, not_true_eq_false, if_false, reduceIte]
    unfold st_serve
    by_cases htext : pyStartswith "text/" (contentTypeFor mime (st_filepath p)) = true
    · simp [htext, hfs]
    · simp [htext, hfs]

/-- Witness for C5: both parts of the amended theorem applied to a file
that exists but cannot be read. -/
theorem c5_witness :
    handle_client "/r" (fun q => if q = "/r/x" then some .unreadable else none)
        mimeNone "D" "GET /x HTTP/1.1\r\n" =
      .response (send_error "D" 500 "Internal Server Error" []) ∧
    st_handle (fun q => if q = "x" then some .unreadable else none) mimeNone
        "GET /x HTTP/1.1\r\n" = .response st404Response :=
  ⟨c5_amended_failure_handling.1 "/r"
      (fun q => if q = "/r/x" then some .unreadable else none) mimeNone "D"
      "GET /x HTTP/1.1\r\n" "/x" "HTTP/1.1" "/r/x"
      (by decide) (by decide) (by decide) (by decide),
   c5_amended_failure_handling.2
      (fun q => if q = "x" then some .unreadable else none) mimeNone
      "GET /x HTTP/1.1\r\n" "/x" "HTTP/1.1"
      (by decide) (by decide) (by decide)⟩

/-- Some header line of the response starts with the given prefix. -/
def hasHeaderPre (pre : String) (r : Response) : Bool :=
  r.headers.any (fun h => pyStartswith pre h)

/-- The three headers the spec requires on every response. -/
def mandatoryOk (r : Response) : Prop :=
  hasHeaderPre "Content-Type: " r = true ∧
  hasHeaderPre "Content-Length: " r = true ∧
  "Connection: close" ∈ r.headers

/-- `mandatoryOk` lifted to the multithreaded result. -/
def mtMandOk : MTResult → Prop
  | .noResponse => True
  | .response r => mandatoryOk r

/-- `mandatoryOk` lifted to the single-threaded result. -/
def stMandOk : STResult → Prop
  | .response r => mandatoryOk r
  | _ => True

/-- Every error of the multithreaded handler carries the exact documented
HTML body for its own status code and reason phrase, and the exact
`Content-Type: text/html; charset=utf-8` header line. -/
def mtErrBodyOk : MTResult → Prop
  | .noResponse => True
  | .response r => r.status ≠ 200 →
      r.body = strBytes (errHtml r.status r.reason) ∧
      "Content-Type: text/html; charset=utf-8" ∈ r.headers

/-- The only non-200 response of the single-threaded server is its fixed
404 response. -/
def stErrBodyOk : STResult → Prop
  | .response r => r.status ≠ 200 → r = st404Response
  | _ => True

theorem mandatoryOk_send_error (date : String) (code : Nat) (reason : String)
    (extras : List String) : mandatoryOk (send_error date code reason extras) := by
  have hct : pyStartswith "Content-Type: "
      "Content-Type: text/html; charset=utf-8" = true := by decide
  refine ⟨?_, ?_, ?_⟩
  · simp [hasHeaderPre, send_error, hct]
  · simp [hasHeaderPre, send_error, pyStartswith_self_append]
  · simp [send_error]

theorem mandatoryOk_mtOk (date ct : String) (content : List Nat) :
    mandatoryOk (mtOk date ct content) := by
  refine ⟨?_, ?_, ?_⟩ <;>
    simp [hasHeaderPre, mtOk, pyStartswith_self_append]

theorem mandatoryOk_stOk (ct : String) (content : List Nat) :
    mandatoryOk (stOk ct content) := by
  refine ⟨?_, ?_, ?_⟩ <;>
    simp [hasHeaderPre, stOk, pyStartswith_self_append]

theorem mandatoryOk_st404 : mandatoryOk st404Response := by
  refine ⟨by decide, by decide, by decide⟩

theorem mtMandOk_handle (root : String) (fs : String → Option FSEntry)
    (mime : String → Option String) (date data : String) :
    mtMandOk (handle_client root fs mime date data) := by
  unfold handle_client
  repeat' split
  all_goals simp only [mtMandOk]
  all_goals first
    | trivial
    | exact mandatoryOk_send_error ..
    | exact mandatoryOk_mtOk ..

theorem stMandOk_serve (fs : String → Option FSEntry)
    (mime : String → Option String) (path : String) :
    stMandOk (st_serve fs mime path) := by
  unfold st_serve
  by_cases h : pyStartswith "text/" (contentTypeFor mime (st_filepath path)) = true
  · rw [if_pos h]
    rcases hf : fs (st_filepath path) with _ | e
    · simp only [stMandOk]
      exact mandatoryOk_st404
    · rcases e with c | _
      · rcases hd : utf8Decode c with _ | chars
        · simp [hd, stMandOk]
        · simp only [hd, stMandOk]
          exact mandatoryOk_stOk ..
      · simp only [stMandOk]
        exact mandatoryOk_st404
  · rw [if_neg h]
    rcases hf : fs (st_filepath path) with _ | e
    · simp only [stMandOk]
      exact mandatoryOk_st404
    · rcases e with c | _
      · simp only [stMandOk]
        exact mandatoryOk_stOk ..
      · simp only [stMandOk]
        exact mandatoryOk_st404

theorem stMandOk_handle (fs : String → Option FSEntry)
    (mime : String → Option String) (data : String) :
    stMandOk (st_handle fs mime data) := by
  unfold st_handle
  repeat' split
  all_goals first
    | exact stMandOk_serve ..
    | simp only [stMandOk]
  all_goals trivial

theorem mtErrBodyOk_handle (root : String) (fs : String → Option FSEntry)
    (mime : String → Option String) (date data : String) :
    mtErrBodyOk (handle_client root fs mime date data) := by
  unfold handle_client
  repeat' split
  all_goals simp [mtErrBodyOk, send_error, mtOk]

theorem stErrBodyOk_serve (fs : String → Option FSEntry)
    (mime : String → Option String) (path : String) :
    stErrBodyOk (st_serve fs mime path) := by
  unfold st_serve
  by_cases h : pyStartswith "text/" (contentTypeFor mime (st_filepath path)) = true
  · rw [if_pos h]
    rcases hf : fs (st_filepath path) with _ | e
    · simp [stErrBodyOk]
    · rcases e with c | _
      · rcases hd : utf8Decode c with _ | chars
        · simp [hd, stErrBodyOk]
        · simp [hd, stErrBodyOk, stOk]
      · simp [stErrBodyOk]
  · rw [if_neg h]
    rcases hf : fs (st_filepath path) with _ | e
    · simp [stErrBodyOk]
    · rcases e with c | _
      · simp [stErrBodyOk, stOk]
      · simp [stErrBodyOk]

theorem stErrBodyOk_handle (fs : String → Option FSEntry)
    (mime : String → Option String) (data : String) :
    stErrBodyOk (st_handle fs mime data) := by
  unfold st_handle
  repeat' split
  all_goals first
    | exact stErrBodyOk_serve ..
    | simp [stErrBodyOk]

/-- C8 counterexample: the claim's exact error-body shape fails on the
single-threaded server, whose 404 body carries an extra explanatory
paragraph beyond `<html><body><h1>404 Not Found</h1></body></html>`. -/
theorem c8_counterexample :
    st_handle fsEmpty mimeNone "GET /zzz.bin HTTP/1.1\r\n\r\n" =
      .response st404Response ∧
    st404Response.body ≠ strBytes (errHtml 404 "Not Found") :=
  ⟨by decide, by decide⟩

/-- C8 amended: every response of either server carries Content-Type,
Content-Length and `Connection: close`; every multithreaded error response
carries the header `Content-Type: text/html; charset=utf-8` and exactly
the body `<html><body><h1>{code} {reason}</h1></body></html>`; the
single-threaded server's only error response is its fixed 404 (which also
carries `Content-Type: text/html; charset=utf-8`), whose body additionally
contains `<p>The requested file was not found on the server.</p>`. -/
theorem c8_amended_headers_and_bodies :
    (∀ root fs mime date data,
      mtMandOk (handle_client root fs mime date data) ∧
      mtErrBodyOk (handle_client root fs mime date data)) ∧
    (∀ fs mime data,
      stMandOk (st_handle fs mime data) ∧
      stErrBodyOk (st_handle fs mime data)) :=
  ⟨fun root fs mime date data =>
    ⟨mtMandOk_handle root fs mime date data,
     mtErrBodyOk_handle root fs mime date data⟩,
   fun fs mime data =>
    ⟨stMandOk_handle fs mime data, stErrBodyOk_handle fs mime data⟩⟩

/-- Witness for C8: the amended theorem applied to a concrete 404 of the
multithreaded server, extracting the documented error body and the exact
Content-Type header. -/
theorem c8_witness :
    (send_error "D" 404 "Not Found" []).body =
      strBytes (errHtml 404 "Not Found") ∧
    "Content-Type: text/html; charset=utf-8" ∈
      (send_error "D" 404 "Not Found" []).headers := by
  have h := (c8_amended_headers_and_bodies.1 "/r" fsEmpty mimeNone "D"
    "GET /zzz HTTP/1.1\r\n").2
  rw [show handle_client "/r" fsEmpty mimeNone "D" "GET /zzz HTTP/1.1\r\n" =
      .response (send_error "D" 404 "Not Found" []) from by decide] at h
  simp only [mtErrBodyOk] at h
  exact h (by decide)
